import Mathlib

/-
Verification of the tinycss core parser (tinycss/parser.py) against its
specification.  The Python module is shallowly embedded: tokens become an
inductive type, the shared token iterator becomes explicit list threading
(each consuming function returns the unconsumed rest of the stream), and
Python exceptions become an explicit error type threaded through Except.
General recursion that consumes a shared iterator is given a fuel
parameter; every entry point instantiates the fuel with the input length,
which is always sufficient because each step consumes at least one token.
-/

set_option maxRecDepth 10000

/-- Source position and reason of a recoverable parse error, mirroring the
ParseError class (which stores the offending token position inside its
formatted message).  Reason strings are abridged copies of the Python
reason arguments. -/
structure ParseError where
  line : Nat
  column : Nat
  reason : String
deriving DecidableEq, Repr

/-- The kinds of exception the module can raise.  Besides the ParseError
class defined in the source, the code can raise NameError (it references
the undefined names UnexpectedToken and error_token), AttributeError
(attribute access on an object lacking the attribute), TypeError
(iterating a non-iterable, unpacking None) and StopIteration (next on an
exhausted iterator). -/
inductive PyError where
  | parse (e : ParseError)
  | nameError (name : String)
  | attributeError (msg : String)
  | typeError (msg : String)
  | stopIteration
deriving DecidableEq, Repr

/-- Tokens.  Leaf tokens (class Token, produced by the external tokenizer)
carry a type tag, their exact source text (as_css), a decoded value and a
position.  ContainerToken carries css_start, css_end and a list of
children; FunctionToken additionally carries the function name. -/
inductive Token where
  | tok (type_ : String) (css : String) (value : String)
      (line : Nat) (column : Nat)
  | containerToken (type_ : String) (css_start : String) (css_end : String)
      (content : List Token) (line : Nat) (column : Nat)
  | functionToken (type_ : String) (css_start : String) (css_end : String)
      (function_name : String) (content : List Token)
      (line : Nat) (column : Nat)

/-- The type attribute, defined on every token object. -/
def Token.type : Token → String
  | .tok t _ _ _ _ => t
  | .containerToken t _ _ _ _ _ => t
  | .functionToken t _ _ _ _ _ _ => t

/-- The line attribute. -/
def Token.line : Token → Nat
  | .tok _ _ _ l _ => l
  | .containerToken _ _ _ _ l _ => l
  | .functionToken _ _ _ _ _ l _ => l

/-- The column attribute. -/
def Token.column : Token → Nat
  | .tok _ _ _ _ c => c
  | .containerToken _ _ _ _ _ c => c
  | .functionToken _ _ _ _ _ _ c => c

mutual
/-- Serialization: a leaf token returns its stored source text; a
container concatenates css_start, the serialization of each child, and
css_end (ContainerToken.as_css). -/
def Token.as_css : Token → String
  | .tok _ css _ _ _ => css
  | .containerToken _ s e content _ _ => s ++ Token.listCss content ++ e
  | .functionToken _ s e _ content _ _ => s ++ Token.listCss content ++ e

/-- Concatenation of the serializations of a list of tokens. -/
def Token.listCss : List Token → String
  | [] => ""
  | t :: ts => Token.as_css t ++ Token.listCss ts
end

/-- The value attribute: present on leaf tokens; ContainerToken and
FunctionToken define no value attribute, so reading it raises
AttributeError. -/
def Token.value_attr : Token → Except PyError String
  | .tok _ _ v _ _ => .ok v
  | .containerToken _ _ _ _ _ _ =>
      .error (.attributeError "ContainerToken object has no attribute value")
  | .functionToken _ _ _ _ _ _ _ =>
      .error (.attributeError "FunctionToken object has no attribute value")

/-- The content attribute: present on containers; a leaf Token has none,
so reading it raises AttributeError. -/
def Token.content_attr : Token → Except PyError (List Token)
  | .tok _ _ _ _ _ =>
      .error (.attributeError "Token object has no attribute content")
  | .containerToken _ _ _ c _ _ => .ok c
  | .functionToken _ _ _ _ c _ _ => .ok c

/-- Total variant of the value attribute used only inside regroup when
building a FunctionToken from a FUNCTION opener.  The tokenizer only
hands regroup flat leaf tokens, which always carry a value; on a
container input Python would raise AttributeError instead, a case that
cannot occur for the documented flat inputs. -/
def Token.valueD : Token → String
  | .tok _ _ v _ _ => v
  | _ => ""

/-- Whether a token is a leaf (tokenizer-produced) token. -/
def Token.isLeaf : Token → Bool
  | .tok _ _ _ _ _ => true
  | _ => false

/-- Python str.lower as used on at-keywords and property names (ASCII
case folding; the grammar produces ASCII names).  This is String.toLower
written directly over the character list so that it evaluates inside the
kernel; the equality with String.toLower is proved below
(strLower_eq_toLower). -/
def strLower (s : String) : String :=
  ⟨s.data.map Char.toLower⟩

/-- The pairs dictionary of regroup: opening token types mapped to the
matching closing token type. -/
def pairs : String → Option String
  | "FUNCTION" => some ")"
  | "(" => some ")"
  | "[" => some "]"
  | "\x7b" => some "\x7d"
  | _ => none

/-- Construction of the grouped token in regroup: a FUNCTION opener
yields a FunctionToken, any other opener a ContainerToken; css_start is
the opening token source text, css_end the matching closer character. -/
def mkGroup (t : Token) (e : String) (content : List Token) : Token :=
  if t.type = "FUNCTION" then
    Token.functionToken t.type t.as_css e (Token.valueD t) content t.line t.column
  else
    Token.containerToken t.type t.as_css e content t.line t.column

/-- Core of regroup.  The Python generator consumes a shared iterator:
on a token whose type equals stop_at it returns (the closer is consumed
and dropped); an opener recursively collects its content from the same
iterator and the outer level continues with whatever is left; any other
token is yielded unchanged; end of input implicitly closes everything.
The function returns the produced tokens together with the unconsumed
rest of the stream.  Fuel bounds the recursion; fuel equal to the list
length is always sufficient since every step consumes one token. -/
def regroupAuxF : Nat → Option String → List Token → List Token × List Token
  | 0, _, ts => ([], ts)
  | _ + 1, _, [] => ([], [])
  | f + 1, stop, t :: rest =>
    if some t.type = stop then
      ([], rest)
    else
      match pairs t.type with
      | none =>
        let r := regroupAuxF f stop rest
        (t :: r.1, r.2)
      | some e =>
        let rc := regroupAuxF f (some e) rest
        let rr := regroupAuxF f stop rc.2
        (mkGroup t e rc.1 :: rr.1, rr.2)

/-- The regroup entry point (stop_at = None). -/
def regroup (ts : List Token) : List Token :=
  (regroupAuxF ts.length none ts).1

/-- The token types accepted unconditionally by the any production
(validate_any, lines 404-406 of the source). -/
def anyOkTypes : List String :=
  ["S", "IDENT", "DIMENSION", "PERCENTAGE", "NUMBER", "URI", "DELIM",
   "STRING", "HASH", "ATKEYWORD", ":", "UNICODE-RANGE", "INCLUDES",
   "DASHMATCH"]

mutual
/-- validate_any.  For a FUNCTION, parenthesis or bracket container it
recurses into every child (reading the content attribute, absent on leaf
tokens); a type in anyOkTypes passes; any other type reaches the raise
statement, whose expression references the undefined name
UnexpectedToken, so Python raises NameError there instead of a
ParseError. -/
def validate_any (token : Token) (context : String) : Except PyError Unit :=
  match token with
  | .tok type_ _ _ _ _ =>
    if type_ = "FUNCTION" ∨ type_ = "(" ∨ type_ = "[" then
      .error (.attributeError "Token object has no attribute content")
    else if type_ ∈ anyOkTypes then .ok ()
    else .error (.nameError "UnexpectedToken")
  | .containerToken type_ _ _ content _ _ =>
    if type_ = "FUNCTION" ∨ type_ = "(" ∨ type_ = "[" then
      validate_any_list content type_
    else if type_ ∈ anyOkTypes then .ok ()
    else .error (.nameError "UnexpectedToken")
  | .functionToken type_ _ _ _ content _ _ =>
    if type_ = "FUNCTION" ∨ type_ = "(" ∨ type_ = "[" then
      validate_any_list content type_
    else if type_ ∈ anyOkTypes then .ok ()
    else .error (.nameError "UnexpectedToken")

/-- The loop of validate_any over the children of a container: the
parent type string is passed as the context of the recursive calls. -/
def validate_any_list (ts : List Token) (context : String) : Except PyError Unit :=
  match ts with
  | [] => .ok ()
  | t :: rest => do
    validate_any t context
    validate_any_list rest context
end

/-- validate_any applied to a value that is a plain string rather than a
token object (as parse_at_rule does on line 216): the first statement of
validate_any reads token.type, and a Python str has no type attribute,
so the call raises AttributeError at once. -/
def validate_any_str (_s : String) (_context : String) : Except PyError Unit :=
  .error (.attributeError "str object has no attribute type")

/-- The head validation loop of parse_at_rule (lines 215-216): for each
head token the code evaluates head_token.value (AttributeError on a
container, which defines no value attribute) and passes that plain value
to validate_any, which immediately fails reading .type on it.  The loop
therefore raises on its first iteration whenever the head is non-empty. -/
def validate_head : List Token → Except PyError Unit
  | [] => .ok ()
  | t :: rest => do
    let v ← t.value_attr
    validate_any_str v "at-rule head"
    validate_head rest

/-- validate_block as parse_value invokes it (line 363): the argument
bound to the tokens parameter is the brace container token itself, not a
list, and the first statement of validate_block iterates it.  Token
objects define no iteration protocol, so Python raises TypeError. -/
def validate_block (_tokens : Token) (_context : String) : Except PyError Unit :=
  .error (.typeError "ContainerToken object is not iterable")

/-- The body of validate_block (lines 383-388) as it would execute on an
actual list of tokens: a brace container child makes the code recurse on
token.value (AttributeError, since containers define no value
attribute); a semicolon or at-keyword passes; anything else goes through
validate_any.  No call site ever reaches this loop with a list. -/
def validate_block_list : List Token → String → Except PyError Unit
  | [], _ => .ok ()
  | t :: rest, context => do
    (if t.type = "\x7b" then do
      let _v ← t.value_attr
      .error (.attributeError "str object has no attribute type")
     else if t.type = ";" ∨ t.type = "ATKEYWORD" then .ok ()
     else validate_any t context)
    validate_block_list rest context

/-- The accumulation loop of parse_value: leading whitespace is skipped
(only while the accumulated content is empty); a brace token is passed
to validate_block (the token itself, see validate_block above); every
other token goes through validate_any; validated tokens are appended. -/
def parse_value_go (content : List Token) : List Token → Except PyError (List Token)
  | [] => .ok content
  | t :: rest =>
    if ¬ content.isEmpty ∨ t.type ≠ "S" then do
      (if t.type = "\x7b" then validate_block t "property value"
       else validate_any t "property value")
      parse_value_go (content ++ [t]) rest
    else
      parse_value_go content rest

/-- The final while loop of parse_value pops trailing whitespace. -/
def stripTrailingS (content : List Token) : List Token :=
  (content.reverse.dropWhile (fun t => t.type == "S")).reverse

/-- parse_value: validate and collect the tokens, then drop trailing
whitespace. -/
def parse_value (tokens : List Token) : Except PyError (List Token) := do
  let content ← parse_value_go [] tokens
  .ok (stripTrailingS content)

/-- The search loop for the colon in parse_declaration (lines 330-336):
whitespace is skipped, a colon stops the loop (returned with the rest of
the tokens, since the subsequent ParseError about an empty value is
positioned at it), any other token reaches a raise whose expression
names the undefined UnexpectedToken (NameError), and exhausting the
tokens triggers the for-else raise of ParseError at the last seen
token. -/
def skip_to_colon (last : Token) : List Token → Except PyError (Token × List Token)
  | [] => .error (.parse ⟨last.line, last.column, "expected colon"⟩)
  | t :: rest =>
    if t.type = ":" then .ok (t, rest)
    else if t.type ≠ "S" then .error (.nameError "UnexpectedToken")
    else skip_to_colon t rest

/-- parse_declaration: the first token must be an IDENT (anything else
reaches the raise referencing the undefined UnexpectedToken, hence
NameError); its value, lower-cased, is the property name; then the colon
is searched; the remaining tokens form the value, which must be
non-empty (else ParseError at the colon token). -/
def parse_declaration (tokens : List Token) : Except PyError (String × List Token) :=
  match tokens with
  | [] => .error .stopIteration
  | token :: rest => do
    let property_name ←
      if token.type = "IDENT" then do
        let v ← token.value_attr
        pure (strLower v)
      else .error (.nameError "UnexpectedToken")
    let (colon_tok, rest2) ← skip_to_colon token rest
    let value ← parse_value rest2
    if value.isEmpty then
      .error (.parse ⟨colon_tok.line, colon_tok.column, "expected a property value"⟩)
    else
      .ok (property_name, value)

/-- The splitting loop of parse_declaration_list (lines 281-292): a
semicolon token flushes the current part only when that part is
non-empty (otherwise the elif appends the semicolon itself to the
part, because its type differs from S); whitespace is skipped only while
the current part is empty; a trailing non-empty part is flushed at the
end. -/
def split_parts (this_part : List Token) : List Token → List (List Token)
  | [] => if this_part.isEmpty then [] else [this_part]
  | t :: rest =>
    if t.type = ";" ∧ ¬ this_part.isEmpty then
      this_part :: split_parts [] rest
    else if ¬ this_part.isEmpty ∨ t.type ≠ "S" then
      split_parts (this_part ++ [t]) rest
    else
      split_parts this_part rest

/-- The declaration loop of parse_declaration_list: each part is parsed;
a ParseError is caught and recorded and the loop continues with the next
part; any other exception propagates. -/
def decls_go : List (List Token) → Except PyError (List (String × List Token) × List ParseError)
  | [] => .ok ([], [])
  | part :: rest =>
    match parse_declaration part with
    | .ok d =>
      match decls_go rest with
      | .ok (ds, es) => .ok (d :: ds, es)
      | .error e => .error e
    | .error (.parse e) =>
      match decls_go rest with
      | .ok (ds, es) => .ok (ds, e :: es)
      | .error e2 => .error e2
    | .error e => .error e

/-- parse_declaration_list: split the block content at semicolons, then
parse each part, isolating ParseError failures per part. -/
def parse_declaration_list (tokens : List Token) :
    Except PyError (List (String × List Token) × List ParseError) :=
  decls_go (split_parts [] tokens)

/-- A top-level entry of the rules list built by parse_stylesheet.  In
Python the list holds heterogeneous values: the 3-tuple returned by
parse_at_rule (at-keyword string, head, optional body), the 3-tuple
(None, selector, declarations) built for a ruleset, or the bare None
that parse_at_rule returns when its loop exhausts the token stream
without reaching a terminator (rules.append stores it unchanged). -/
inductive Rule where
  | at (keyword : String) (head : List Token) (body : Option Token)
  | ruleset (selector : Token) (declarations : List (String × List Token))
  | pyNone

/-- The first component of a rules entry viewed as a 3-tuple: the
at-keyword string for an at-rule, None for a ruleset; the bare None
entry is not a tuple at all and has no first component. -/
def rule_first : Rule → Option (Option String)
  | .at kw _ _ => some (some kw)
  | .ruleset _ _ => some none
  | .pyNone => none

/-- Conversion of the value returned by parse_at_rule into the rules
list entry appended by parse_stylesheet (line 173): a tuple stays a
tuple, the bare None is appended unchanged. -/
def rule_of_at : Option (String × List Token × Option Token) → Rule
  | none => Rule.pyNone
  | some (kw, head, body) => Rule.at kw head body

/-- The loop of parse_ruleset over chain([first_token], tokens): tokens
are accumulated as the selector until a brace token is reached; then
every selector token is validated with validate_any, the selector parts
are wrapped in a synthetic SELECTOR container positioned at the first
selector token (or at the brace token when the selector is empty), and
the content of the brace container is handed to parse_declaration_list.
Exhausting the stream without a brace falls out of the loop and returns
None.  The unconsumed rest of the stream is returned alongside. -/
def ruleset_go (selector_parts : List Token) :
    List Token →
    Except PyError (Option (Token × List (String × List Token) × List ParseError)) × List Token
  | [] => (.ok none, [])
  | t :: rest =>
    if t.type = "\x7b" then
      match validate_any_list selector_parts "selector" with
      | .error e => (.error e, rest)
      | .ok () =>
        let start := selector_parts.headD t
        let selector :=
          Token.containerToken "SELECTOR" "" "" selector_parts start.line start.column
        match t.content_attr with
        | .error e => (.error e, rest)
        | .ok content =>
          match parse_declaration_list content with
          | .error e => (.error e, rest)
          | .ok (declarations, errors) =>
            (.ok (some (selector, declarations, errors)), rest)
    else
      ruleset_go (selector_parts ++ [t]) rest

/-- parse_ruleset: the first token was already consumed by the caller
and is chained in front of the remaining stream. -/
def parse_ruleset (first_token : Token) (tokens : List Token) :
    Except PyError (Option (Token × List (String × List Token) × List ParseError)) × List Token :=
  ruleset_go [] (first_token :: tokens)

/-- The head loop of parse_at_rule: a token whose type is a brace or a
semicolon terminates the rule (the Python test is a substring check
against the two-character string of brace and semicolon, which for
actual token types is exactly membership in that pair); the whole head
is then validated (see validate_head) and the rule tuple is returned,
with the brace container itself as the body, or None after a semicolon.
Whitespace directly after the at-keyword is skipped; any other token is
appended to the head.  Exhausting the stream falls out of the loop and
returns None. -/
def at_rule_go (at_keyword : String) (head : List Token) :
    List Token →
    Except PyError (Option (String × List Token × Option Token)) × List Token
  | [] => (.ok none, [])
  | t :: rest =>
    if t.type = "\x7b" ∨ t.type = ";" then
      match validate_head head with
      | .error e => (.error e, rest)
      | .ok () =>
        (.ok (some (at_keyword, head, if t.type = "\x7b" then some t else none)), rest)
    else if ¬ head.isEmpty ∨ t.type ≠ "S" then
      at_rule_go at_keyword (head ++ [t]) rest
    else
      at_rule_go at_keyword head rest

/-- parse_at_rule: the at-keyword is the lower-cased value of the
ATKEYWORD token (String.toLower models str.lower on the ASCII keywords
the grammar produces), then the head loop consumes the stream. -/
def parse_at_rule (at_keyword_token : Token) (tokens : List Token) :
    Except PyError (Option (String × List Token × Option Token)) × List Token :=
  match at_keyword_token.value_attr with
  | .error e => (.error e, tokens)
  | .ok v => at_rule_go (strLower v) [] tokens

/-- The driver loop of parse_stylesheet over the grouped token stream.
Whitespace and CDO/CDC markers are skipped at top level; an ATKEYWORD
token is handed to parse_at_rule and the returned value (tuple or bare
None) is appended to the rules; any other token starts a ruleset, whose
returned triple is unpacked (unpacking the None of a brace-less ruleset
raises TypeError) and appended as (None, selector, declarations) with
its declaration errors collected.  A ParseError from either delegate is
caught and recorded and the loop resumes with the rest of the stream;
any other exception propagates out of parse_stylesheet.  Fuel bounds the
recursion; the input length is always sufficient since each rule
consumes at least one token. -/
def parse_stylesheet_goF : Nat → List Token → Except PyError (List Rule × List ParseError)
  | 0, _ => .ok ([], [])
  | _ + 1, [] => .ok ([], [])
  | f + 1, t :: rest =>
    if t.type = "S" ∨ t.type = "CDO" ∨ t.type = "CDC" then
      parse_stylesheet_goF f rest
    else if t.type = "ATKEYWORD" then
      match parse_at_rule t rest with
      | (.ok r, remaining) =>
        match parse_stylesheet_goF f remaining with
        | .ok (rules, errors) => .ok (rule_of_at r :: rules, errors)
        | .error e => .error e
      | (.error (.parse e), remaining) =>
        match parse_stylesheet_goF f remaining with
        | .ok (rules, errors) => .ok (rules, e :: errors)
        | .error e2 => .error e2
      | (.error e, _) => .error e
    else
      match parse_ruleset t rest with
      | (.ok none, _) =>
        .error (.typeError "cannot unpack non-iterable NoneType object")
      | (.ok (some (selector, declarations, rule_errors)), remaining) =>
        match parse_stylesheet_goF f remaining with
        | .ok (rules, errors) =>
          .ok (Rule.ruleset selector declarations :: rules, rule_errors ++ errors)
        | .error e => .error e
      | (.error (.parse e), remaining) =>
        match parse_stylesheet_goF f remaining with
        | .ok (rules, errors) => .ok (rules, e :: errors)
        | .error e2 => .error e2
      | (.error e, _) => .error e

/-- parse_stylesheet over an already grouped token stream. -/
def parse_stylesheet (tokens : List Token) : Except PyError (List Rule × List ParseError) :=
  parse_stylesheet_goF tokens.length tokens

/-- Whether a grouping pass over the stream closes every container with
an explicit closing token.  The recursion mirrors regroupAuxF exactly
(same fuel discipline, same iterator threading): reaching the stop token
closes the current level explicitly; end of input closes it implicitly,
which counts as properly closed only at the outermost level (stop_at =
None).  This predicate formalises the side condition of the amended
round-trip claim. -/
def closesOkF : Nat → Option String → List Token → Bool
  | 0, stop, _ => stop.isNone
  | _ + 1, stop, [] => stop.isNone
  | f + 1, stop, t :: rest =>
    if some t.type = stop then true
    else
      match pairs t.type with
      | none => closesOkF f stop rest
      | some e =>
        closesOkF f (some e) rest && closesOkF f stop (regroupAuxF f (some e) rest).2

/-- Entry point of closesOkF at the outermost level. -/
def closesOk (ts : List Token) : Bool :=
  closesOkF ts.length none ts

/-- Tokenizer contract on closing punctuation: a closing parenthesis,
bracket or brace token is spelled exactly as its one-character type.
The external tokenizer guarantees this for the single-character
punctuation tokens of the lexical vocabulary. -/
def closerCssOk (ts : List Token) : Prop :=
  ∀ t ∈ ts, (t.type = ")" ∨ t.type = "]" ∨ t.type = "\x7d") → t.as_css = t.type

instance decCloserCssOk (ts : List Token) : Decidable (closerCssOk ts) := by
  unfold closerCssOk
  infer_instance

/-- The text contributed by an explicitly consumed closer at one
grouping level: nothing at the outermost level, the closer character
otherwise. -/
def closeCss : Option String → String
  | none => ""
  | some e => e

/-- The stop_at values regroup can actually pass: None at the top level
and the three closer characters from pairs. -/
def stopOk (stop : Option String) : Prop :=
  stop = none ∨ stop = some ")" ∨ stop = some "]" ∨ stop = some "\x7d"

mutual
/-- Well-formedness invariant of grouped trees: no container carries, in
its direct content, a token whose type is the container matching closer,
and all children satisfy the invariant recursively. -/
def noOwnCloser : Token → Bool
  | .tok _ _ _ _ _ => true
  | .containerToken type_ _ _ content _ _ => noOwnCloserList (pairs type_) content
  | .functionToken type_ _ _ _ content _ _ => noOwnCloserList (pairs type_) content

/-- Content check for noOwnCloser: every child avoids the closing type
of the enclosing container and is itself well-formed. -/
def noOwnCloserList : Option String → List Token → Bool
  | _, [] => true
  | cl, t :: rest =>
    (match cl with
     | some e => t.type ≠ e
     | none => true) && noOwnCloser t && noOwnCloserList cl rest
end

/-- Token stream of the source text consisting of an unmatched closing
brace, a space and an empty brace block, as produced by the external
tokenizer (flat single-character punctuation and whitespace tokens). -/
def c1_tokens : List Token :=
  [Token.tok "\x7d" "\x7d" "\x7d" 1 1,
   Token.tok "S" " " " " 1 2,
   Token.tok "\x7b" "\x7b" "\x7b" 1 3,
   Token.tok "\x7d" "\x7d" "\x7d" 1 4]

/-- Token stream of a truncated source: an opening parenthesis followed
by an identifier, with the closing parenthesis missing. -/
def c2_open_tokens : List Token :=
  [Token.tok "(" "(" "(" 1 1,
   Token.tok "IDENT" "a" "a" 1 2]

/-- Token stream of the same source with the parenthesis closed. -/
def c2_closed_tokens : List Token :=
  [Token.tok "(" "(" "(" 1 1,
   Token.tok "IDENT" "a" "a" 1 2,
   Token.tok ")" ")" ")" 1 3]

/-- Block content tokens of a declaration list in which the middle
declaration has a NUMBER token in property position: the source text
with declarations a:1, then 2:2, then c:3. -/
def c3_bad_tokens : List Token :=
  [Token.tok "IDENT" "a" "a" 1 1,
   Token.tok ":" ":" ":" 1 2,
   Token.tok "NUMBER" "1" "1" 1 3,
   Token.tok ";" ";" ";" 1 4,
   Token.tok "S" " " " " 1 5,
   Token.tok "NUMBER" "2" "2" 1 6,
   Token.tok ":" ":" ":" 1 7,
   Token.tok "NUMBER" "2" "2" 1 8,
   Token.tok ";" ";" ";" 1 9,
   Token.tok "S" " " " " 1 10,
   Token.tok "IDENT" "c" "c" 1 11,
   Token.tok ":" ":" ":" 1 12,
   Token.tok "NUMBER" "3" "3" 1 13]

/-- Block content tokens of the declaration list a:1, then a bare b
with no colon and no value, then c:3, each terminated by a semicolon. -/
def c3_fixed_tokens : List Token :=
  [Token.tok "IDENT" "a" "a" 1 1,
   Token.tok ":" ":" ":" 1 2,
   Token.tok "NUMBER" "1" "1" 1 3,
   Token.tok ";" ";" ";" 1 4,
   Token.tok "S" " " " " 1 5,
   Token.tok "IDENT" "b" "b" 1 6,
   Token.tok ";" ";" ";" 1 7,
   Token.tok "S" " " " " 1 8,
   Token.tok "IDENT" "c" "c" 1 9,
   Token.tok ":" ":" ":" 1 10,
   Token.tok "NUMBER" "3" "3" 1 11,
   Token.tok ";" ";" ";" 1 12]

/-- Token stream of an import at-rule with a string head terminated by
a semicolon (the spec example of an at-rule without body). -/
def c4_tokens : List Token :=
  [Token.tok "ATKEYWORD" "@import" "@import" 1 1,
   Token.tok "S" " " " " 1 8,
   Token.tok "STRING" "\"x.css\"" "x.css" 1 9,
   Token.tok ";" ";" ";" 1 16]

/-- An empty brace container, as regroup builds for an empty block in
value position. -/
def c5_block : Token :=
  Token.containerToken "\x7b" "\x7b" "\x7d" [] 1 3

/-- Block content tokens of a declaration list that starts with a bare
semicolon, whitespace, a second semicolon, and then the declaration
a:1. -/
def c6_tokens : List Token :=
  [Token.tok ";" ";" ";" 1 1,
   Token.tok "S" "  " "  " 1 2,
   Token.tok ";" ";" ";" 1 4,
   Token.tok "S" " " " " 1 5,
   Token.tok "IDENT" "a" "a" 1 6,
   Token.tok ":" ":" ":" 1 7,
   Token.tok "NUMBER" "1" "1" 1 8]

/-- Flat token stream of a truncated stylesheet: selector a, an opening
brace, the declaration color: red, and no closing brace. -/
def c7_tokens : List Token :=
  [Token.tok "IDENT" "a" "a" 1 1,
   Token.tok "S" " " " " 1 2,
   Token.tok "\x7b" "\x7b" "\x7b" 1 3,
   Token.tok "S" " " " " 1 4,
   Token.tok "IDENT" "color" "color" 1 5,
   Token.tok ":" ":" ":" 1 10,
   Token.tok "S" " " " " 1 11,
   Token.tok "IDENT" "red" "red" 1 12]

/-- The synthetic selector container parse_ruleset builds for the
truncated stylesheet above. -/
def c7_selector : Token :=
  Token.containerToken "SELECTOR" "" ""
    [Token.tok "IDENT" "a" "a" 1 1, Token.tok "S" " " " " 1 2] 1 1

/-- Flat token stream of four nested parentheses around one
identifier. -/
def c8_tokens : List Token :=
  [Token.tok "(" "(" "(" 1 1,
   Token.tok "(" "(" "(" 1 2,
   Token.tok "(" "(" "(" 1 3,
   Token.tok "(" "(" "(" 1 4,
   Token.tok "IDENT" "a" "a" 1 5,
   Token.tok ")" ")" ")" 1 6,
   Token.tok ")" ")" ")" 1 7,
   Token.tok ")" ")" ")" 1 8,
   Token.tok ")" ")" ")" 1 9]

/-- The grouped tree expected for the four nested parentheses: four
containers, each with exactly one child. -/
def c8_grouped : Token :=
  Token.containerToken "(" "(" ")"
    [Token.containerToken "(" "(" ")"
      [Token.containerToken "(" "(" ")"
        [Token.containerToken "(" "(" ")"
          [Token.tok "IDENT" "a" "a" 1 5] 1 4] 1 3] 1 2] 1 1

/-- Token stream of an at-rule whose head never reaches a semicolon or
brace: the at-keyword, whitespace, and one identifier before end of
input. -/
def c9_tokens : List Token :=
  [Token.tok "ATKEYWORD" "@foo" "@foo" 1 1,
   Token.tok "S" " " " " 1 5,
   Token.tok "IDENT" "bar" "bar" 1 6]

/-- Token stream of a second exhausted at-rule, used for the rules list
shape claim. -/
def c10_tokens : List Token :=
  [Token.tok "ATKEYWORD" "@bar" "@bar" 1 1,
   Token.tok "S" " " " " 1 5,
   Token.tok "IDENT" "baz" "baz" 1 6]

/-- strLower agrees with String.toLower on every string. -/
theorem strLower_eq_toLower (s : String) : strLower s = s.toLower := by
  rw [String.toLower, String.map_eq]
  rfl

theorem pairs_closer {s e : String} (h : pairs s = some e) :
    e = ")" ∨ e = "]" ∨ e = "\x7d" := by
  unfold pairs at h
  split at h <;> simp_all

theorem mkGroup_as_css (t : Token) (e : String) (content : List Token) :
    (mkGroup t e content).as_css = t.as_css ++ Token.listCss content ++ e := by
  unfold mkGroup
  split <;> rfl

theorem mkGroup_type (t : Token) (e : String) (content : List Token) :
    (mkGroup t e content).type = t.type := by
  unfold mkGroup
  split <;> rfl

theorem regroupAuxF_rest_le (f : Nat) (stop : Option String) (ts : List Token) :
    (regroupAuxF f stop ts).2.length ≤ ts.length := by
  induction f generalizing stop ts with
  | zero => simp [regroupAuxF]
  | succ f ih =>
    cases ts with
    | nil => simp [regroupAuxF]
    | cons t rest =>
      simp only [regroupAuxF]
      split
      · simp
      · split
        · exact Nat.le_succ_of_le (ih stop rest)
        · exact Nat.le_succ_of_le (Nat.le_trans (ih stop _) (ih _ rest))

theorem regroupAuxF_rest_mem (f : Nat) (stop : Option String) (ts : List Token) :
    ∀ x ∈ (regroupAuxF f stop ts).2, x ∈ ts := by
  induction f generalizing stop ts with
  | zero => simp [regroupAuxF]
  | succ f ih =>
    cases ts with
    | nil => simp [regroupAuxF]
    | cons t rest =>
      simp only [regroupAuxF]
      split
      · intro x hx
        exact List.mem_cons_of_mem t hx
      · split
        · intro x hx
          exact List.mem_cons_of_mem t (ih stop rest x hx)
        · intro x hx
          exact List.mem_cons_of_mem t (ih _ rest x (ih stop _ x hx))

theorem regroup_roundtripAux (f : Nat) :
    ∀ (stop : Option String) (ts : List Token), ts.length ≤ f → stopOk stop →
      closerCssOk ts → closesOkF f stop ts = true →
      Token.listCss (regroupAuxF f stop ts).1 ++ closeCss stop
        ++ Token.listCss (regroupAuxF f stop ts).2 = Token.listCss ts := by
  induction f with
  | zero =>
    intro stop ts hlen _hstop _hcss hcl
    have hts : ts = [] := List.length_eq_zero.mp (Nat.le_zero.mp hlen)
    subst hts
    cases stop with
    | none => simp [regroupAuxF, closeCss, Token.listCss]
    | some e => simp [closesOkF] at hcl
  | succ f ih =>
    intro stop ts hlen hstop hcss hcl
    cases ts with
    | nil =>
      cases stop with
      | none => simp [regroupAuxF, closeCss, Token.listCss]
      | some e => simp [closesOkF] at hcl
    | cons t rest =>
      have hlenr : rest.length ≤ f := Nat.le_of_succ_le_succ (by simpa using hlen)
      have hcssr : closerCssOk rest :=
        fun x hx hc => hcss x (List.mem_cons_of_mem t hx) hc
      by_cases h1 : some t.type = stop
      · cases stop with
        | none => exact absurd h1 (by simp)
        | some e =>
          have hte : t.type = e := by simpa using h1
          have hr : regroupAuxF (f + 1) (some e) (t :: rest) = ([], rest) := by
            simp only [regroupAuxF]
            rw [if_pos h1]
          rw [hr]
          have hcloser : e = ")" ∨ e = "]" ∨ e = "\x7d" := by
            rcases hstop with h | h | h | h <;> simp_all
          have hcsst : t.as_css = t.type :=
            hcss t (List.mem_cons_self t rest) (by rw [hte]; exact hcloser)
          simp [Token.listCss, closeCss, hcsst, hte]
      · cases h2 : pairs t.type with
        | none =>
          have hr : regroupAuxF (f + 1) stop (t :: rest)
              = (t :: (regroupAuxF f stop rest).1, (regroupAuxF f stop rest).2) := by
            simp only [regroupAuxF]
            rw [if_neg h1, h2]
          have hcl' : closesOkF f stop rest = true := by
            simp only [closesOkF] at hcl
            rw [if_neg h1, h2] at hcl
            exact hcl
          have hmain := ih stop rest hlenr hstop hcssr hcl'
          rw [hr]
          simp only [Token.listCss, String.append_assoc] at hmain ⊢
          rw [hmain]
        | some e =>
          have hstope : stopOk (some e) := by
            rcases pairs_closer h2 with h | h | h
            · exact Or.inr (Or.inl (by rw [h]))
            · exact Or.inr (Or.inr (Or.inl (by rw [h])))
            · exact Or.inr (Or.inr (Or.inr (by rw [h])))
          have hclsplit : closesOkF f (some e) rest = true ∧
              closesOkF f stop (regroupAuxF f (some e) rest).2 = true := by
            simp only [closesOkF] at hcl
            rw [if_neg h1, h2] at hcl
            simpa using hcl
          obtain ⟨hcl1, hcl2⟩ := hclsplit
          have ih1 := ih (some e) rest hlenr hstope hcssr hcl1
          have hlen2 : (regroupAuxF f (some e) rest).2.length ≤ f :=
            Nat.le_trans (regroupAuxF_rest_le f (some e) rest) hlenr
          have hcss2 : closerCssOk (regroupAuxF f (some e) rest).2 :=
            fun x hx hc =>
              hcss x (List.mem_cons_of_mem t (regroupAuxF_rest_mem f (some e) rest x hx)) hc
          have ih2 := ih stop (regroupAuxF f (some e) rest).2 hlen2 hstop hcss2 hcl2
          have hr : regroupAuxF (f + 1) stop (t :: rest)
              = (mkGroup t e (regroupAuxF f (some e) rest).1
                   :: (regroupAuxF f stop (regroupAuxF f (some e) rest).2).1,
                 (regroupAuxF f stop (regroupAuxF f (some e) rest).2).2) := by
            simp only [regroupAuxF]
            rw [if_neg h1, h2]
          rw [hr]
          simp only [closeCss] at ih1
          simp only [Token.listCss, mkGroup_as_css, String.append_assoc] at ih1 ih2 ⊢
          rw [ih2, ih1]

theorem regroupAuxF_none_rest_nil (f : Nat) :
    ∀ ts : List Token, ts.length ≤ f → (regroupAuxF f none ts).2 = [] := by
  induction f with
  | zero =>
    intro ts hlen
    have hts : ts = [] := List.length_eq_zero.mp (Nat.le_zero.mp hlen)
    subst hts
    simp [regroupAuxF]
  | succ f ih =>
    intro ts hlen
    cases ts with
    | nil => simp [regroupAuxF]
    | cons t rest =>
      have hlenr : rest.length ≤ f := Nat.le_of_succ_le_succ (by simpa using hlen)
      simp only [regroupAuxF]
      rw [if_neg (by simp)]
      cases h2 : pairs t.type with
      | none => simpa using ih rest hlenr
      | some e =>
        have : (regroupAuxF f (some e) rest).2.length ≤ f :=
          Nat.le_trans (regroupAuxF_rest_le f (some e) rest) hlenr
        simpa using ih _ this

theorem pairs_opener {s e : String} (h : pairs s = some e) :
    s = "FUNCTION" ∨ s = "(" ∨ s = "[" ∨ s = "\x7b" := by
  unfold pairs at h
  split at h <;> simp_all

theorem noOwnCloserList_of (cl : Option String) (l : List Token)
    (h : ∀ u ∈ l, noOwnCloser u = true ∧ ∀ e, cl = some e → u.type ≠ e) :
    noOwnCloserList cl l = true := by
  induction l with
  | nil => rfl
  | cons t rest ih =>
    obtain ⟨h1, h2⟩ := h t (List.mem_cons_self t rest)
    simp only [noOwnCloserList, Bool.and_eq_true]
    refine ⟨⟨?_, h1⟩, ih (fun u hu => h u (List.mem_cons_of_mem t hu))⟩
    cases cl with
    | none => rfl
    | some e => simpa using h2 e rfl

theorem regroup_invariantAux (f : Nat) :
    ∀ (stop : Option String) (ts : List Token), ts.length ≤ f → stopOk stop →
      (∀ t ∈ ts, t.isLeaf = true) →
      ∀ u ∈ (regroupAuxF f stop ts).1,
        noOwnCloser u = true ∧ ∀ e, stop = some e → u.type ≠ e := by
  induction f with
  | zero =>
    intro stop ts hlen _ _
    have hts : ts = [] := List.length_eq_zero.mp (Nat.le_zero.mp hlen)
    subst hts
    simp [regroupAuxF]
  | succ f ih =>
    intro stop ts hlen hstop hleaf
    cases ts with
    | nil => simp [regroupAuxF]
    | cons t rest =>
      have hlenr : rest.length ≤ f := Nat.le_of_succ_le_succ (by simpa using hlen)
      have hleafr : ∀ x ∈ rest, x.isLeaf = true :=
        fun x hx => hleaf x (List.mem_cons_of_mem t hx)
      by_cases h1 : some t.type = stop
      · have hr : regroupAuxF (f + 1) stop (t :: rest) = ([], rest) := by
          simp only [regroupAuxF]
          rw [if_pos h1]
        rw [hr]
        simp
      · cases h2 : pairs t.type with
        | none =>
          have hr : regroupAuxF (f + 1) stop (t :: rest)
              = (t :: (regroupAuxF f stop rest).1, (regroupAuxF f stop rest).2) := by
            simp only [regroupAuxF]
            rw [if_neg h1, h2]
          rw [hr]
          intro u hu
          rcases List.mem_cons.mp hu with rfl | hu
          · constructor
            · have hl := hleaf u (List.mem_cons_self u rest)
              cases u with
              | tok _ _ _ _ _ => rfl
              | containerToken _ _ _ _ _ _ => simp [Token.isLeaf] at hl
              | functionToken _ _ _ _ _ _ _ => simp [Token.isLeaf] at hl
            · intro e he hte
              exact h1 (by rw [hte, he])
          · exact ih stop rest hlenr hstop hleafr u hu
        | some e2 =>
          have hstope2 : stopOk (some e2) := by
            rcases pairs_closer h2 with h | h | h
            · exact Or.inr (Or.inl (by rw [h]))
            · exact Or.inr (Or.inr (Or.inl (by rw [h])))
            · exact Or.inr (Or.inr (Or.inr (by rw [h])))
          have hr : regroupAuxF (f + 1) stop (t :: rest)
              = (mkGroup t e2 (regroupAuxF f (some e2) rest).1
                   :: (regroupAuxF f stop (regroupAuxF f (some e2) rest).2).1,
                 (regroupAuxF f stop (regroupAuxF f (some e2) rest).2).2) := by
            simp only [regroupAuxF]
            rw [if_neg h1, h2]
          rw [hr]
          intro u hu
          rcases List.mem_cons.mp hu with rfl | hu
          · have hch := ih (some e2) rest hlenr hstope2 hleafr
            constructor
            · have hlist : noOwnCloserList (some e2) (regroupAuxF f (some e2) rest).1 = true := by
                refine noOwnCloserList_of _ _ (fun u hu => ⟨(hch u hu).1, ?_⟩)
                intro e' he'
                have he2 : e' = e2 := by injection he'.symm
                rw [he2]
                exact (hch u hu).2 e2 rfl
              unfold mkGroup
              split
              · simp only [noOwnCloser]
                rw [h2]
                exact hlist
              · simp only [noOwnCloser]
                rw [h2]
                exact hlist
            · intro e' he'
              rw [mkGroup_type]
              have hcl : e' = ")" ∨ e' = "]" ∨ e' = "\x7d" := by
                rcases hstop with h | h | h | h <;> simp_all
              rcases pairs_opener h2 with h | h | h | h <;>
                rcases hcl with h' | h' | h' <;> simp [h, h']
          · have hlen2 : (regroupAuxF f (some e2) rest).2.length ≤ f :=
              Nat.le_trans (regroupAuxF_rest_le f (some e2) rest) hlenr
            have hleaf2 : ∀ x ∈ (regroupAuxF f (some e2) rest).2, x.isLeaf = true :=
              fun x hx => hleafr x (regroupAuxF_rest_mem f (some e2) rest x hx)
            exact ih stop _ hlen2 hstop hleaf2 u hu

theorem at_rule_go_no_term (kw : String) :
    ∀ (ts : List Token) (head : List Token),
      (∀ t ∈ ts, t.type ≠ "\x7b" ∧ t.type ≠ ";") →
      at_rule_go kw head ts = (.ok none, []) := by
  intro ts
  induction ts with
  | nil => intro head _; rfl
  | cons t rest ih =>
    intro head h
    obtain ⟨h1, h2⟩ := h t (List.mem_cons_self t rest)
    simp only [at_rule_go]
    rw [if_neg (by tauto)]
    split
    · exact ih _ (fun x hx => h x (List.mem_cons_of_mem t hx))
    · exact ih _ (fun x hx => h x (List.mem_cons_of_mem t hx))

theorem parse_stylesheet_goF_nil (f : Nat) :
    parse_stylesheet_goF f [] = .ok ([], []) := by
  cases f <;> rfl

theorem at_rule_go_kw (kw : String) :
    ∀ (ts head : List Token) (x : String × List Token × Option Token)
      (rest2 : List Token),
      at_rule_go kw head ts = (.ok (some x), rest2) → x.1 = kw := by
  intro ts
  induction ts with
  | nil =>
    intro head x rest2 h
    simp [at_rule_go, Prod.mk.injEq] at h
  | cons t rest ih =>
    intro head x rest2 h
    simp only [at_rule_go] at h
    split at h
    · split at h
      · simp at h
      · rw [Prod.mk.injEq] at h
        obtain ⟨h3, _⟩ := h
        have hx : some (kw, head, if t.type = "\x7b" then some t else none) = some x :=
          Except.ok.inj h3
        rw [← Option.some.inj hx]
    · split at h
      · exact ih _ x rest2 h
      · exact ih _ x rest2 h

theorem parse_at_rule_ok_shape (t : Token) (ts : List Token)
    (r0 : Option (String × List Token × Option Token)) (rest2 : List Token)
    (h : parse_at_rule t ts = (.ok r0, rest2)) :
    r0 = none ∨ ∃ v head body, r0 = some (strLower v, head, body) := by
  unfold parse_at_rule at h
  split at h
  · simp [Prod.mk.injEq] at h
  · next v _heq =>
    cases r0 with
    | none => exact Or.inl rfl
    | some x =>
      right
      refine ⟨v, x.2.1, x.2.2, ?_⟩
      have hkw := at_rule_go_kw (strLower v) ts [] x rest2 h
      rw [← hkw]

theorem parse_stylesheet_shapeAux (f : Nat) :
    ∀ (ts : List Token) (rules : List Rule) (errors : List ParseError),
      parse_stylesheet_goF f ts = .ok (rules, errors) →
      ∀ r ∈ rules,
        r = Rule.pyNone ∨ (∃ v head body, r = Rule.at (strLower v) head body)
          ∨ ∃ s d, r = Rule.ruleset s d := by
  induction f with
  | zero =>
    intro ts rules errors h r hr
    simp only [parse_stylesheet_goF, Except.ok.injEq, Prod.mk.injEq] at h
    obtain ⟨h1, _⟩ := h
    rw [← h1] at hr
    simp at hr
  | succ f ih =>
    intro ts rules errors h r hr
    cases ts with
    | nil =>
      simp only [parse_stylesheet_goF, Except.ok.injEq, Prod.mk.injEq] at h
      obtain ⟨h1, _⟩ := h
      rw [← h1] at hr
      simp at hr
    | cons t rest =>
      simp only [parse_stylesheet_goF] at h
      split at h
      · exact ih rest rules errors h r hr
      · split at h
        · -- at-rule branch
          split at h
          · next r0 remaining heq =>
            split at h
            · next rules0 errors0 heq0 =>
              rw [Except.ok.injEq, Prod.mk.injEq] at h
              obtain ⟨h1, _⟩ := h
              rw [← h1] at hr
              rcases List.mem_cons.mp hr with rfl | hr2
              · rcases parse_at_rule_ok_shape t rest r0 remaining heq with h3 | ⟨v, hd, bd, h3⟩
                · rw [h3]
                  exact Or.inl rfl
                · rw [h3]
                  exact Or.inr (Or.inl ⟨v, hd, bd, rfl⟩)
              · exact ih remaining rules0 errors0 heq0 r hr2
            · simp at h
          · next e remaining heq =>
            split at h
            · next rules0 errors0 heq0 =>
              rw [Except.ok.injEq, Prod.mk.injEq] at h
              obtain ⟨h1, _⟩ := h
              rw [← h1] at hr
              exact ih remaining rules0 errors0 heq0 r hr
            · simp at h
          · simp at h
        · -- ruleset branch
          split at h
          · simp at h
          · next selector declarations rule_errors remaining heq =>
            split at h
            · next rules0 errors0 heq0 =>
              rw [Except.ok.injEq, Prod.mk.injEq] at h
              obtain ⟨h1, _⟩ := h
              rw [← h1] at hr
              rcases List.mem_cons.mp hr with rfl | hr2
              · exact Or.inr (Or.inr ⟨selector, declarations, rfl⟩)
              · exact ih remaining rules0 errors0 heq0 r hr2
            · simp at h
          · next e remaining heq =>
            split at h
            · next rules0 errors0 heq0 =>
              rw [Except.ok.injEq, Prod.mk.injEq] at h
              obtain ⟨h1, _⟩ := h
              rw [← h1] at hr
              exact ih remaining rules0 errors0 heq0 r hr
            · simp at h
          · simp at h

/-- C1: the claim states that parse_stylesheet catches every error
raised by its delegates and records it in the returned errors list.
The code contradicts this: validate_any reaches a raise statement whose
expression references the undefined name UnexpectedToken, so an invalid
selector token (here an unmatched closing brace before a block) raises
NameError, which the except ParseError clause does not catch, and the
exception escapes parse_stylesheet instead of being recorded. -/
theorem c1_parse_stylesheet_propagates_nameerror :
    parse_stylesheet (regroup c1_tokens) = .error (.nameError "UnexpectedToken") := rfl

/-- C2 counterexample: serialization after grouping is not lossless for
every source text.  For the truncated source of an opening parenthesis
followed by an identifier, regroup closes the container implicitly and
as_css appends a closing parenthesis that was not in the source, so the
round-trip changes the text. -/
theorem c2_roundtrip_counterexample :
    Token.listCss (regroup c2_open_tokens) ≠ Token.listCss c2_open_tokens := by
  decide

/-- C2 amended: for every token stream whose closing punctuation is
spelled as its type and in which every container is closed by an
explicit closing token (no implicit end-of-input close), serializing the
grouped token tree reproduces the concatenated source text exactly. -/
theorem c2_roundtrip_amended (ts : List Token)
    (hcss : closerCssOk ts) (hcl : closesOk ts = true) :
    Token.listCss (regroup ts) = Token.listCss ts := by
  have h := regroup_roundtripAux ts.length none ts (Nat.le_refl _) (Or.inl rfl) hcss hcl
  have h2 := regroupAuxF_none_rest_nil ts.length ts (Nat.le_refl _)
  rw [h2] at h
  simpa [closeCss, Token.listCss, regroup, String.append_empty] using h

/-- C2 witness: the round-trip theorem applied to the explicitly closed
stream of a parenthesis containing an identifier. -/
theorem c2_roundtrip_witness :
    closerCssOk c2_closed_tokens ∧ closesOk c2_closed_tokens = true ∧
      Token.listCss (regroup c2_closed_tokens) = Token.listCss c2_closed_tokens :=
  ⟨by decide, by decide, c2_roundtrip_amended c2_closed_tokens (by decide) (by decide)⟩

/-- C3 counterexample: an invalid declaration does not discard only
itself.  In the block content with declarations a:1, 2:2 and c:3, the
middle declaration has a NUMBER token in property position; the raise
in parse_declaration references the undefined name UnexpectedToken, so
the resulting NameError escapes the except ParseError clause of
parse_declaration_list and the whole declaration list fails, discarding
the valid siblings a and c as well. -/
theorem c3_isolation_counterexample :
    parse_declaration_list c3_bad_tokens = .error (.nameError "UnexpectedToken") := rfl

/-- C3 amended: a declaration rejected with an actual ParseError (here
the bare property b with no colon) discards only itself: the block
content with declarations a:1, a bare b, and c:3 yields exactly the
declarations for a and c and exactly one recorded error located at the
b token (line 1, column 6). -/
theorem c3_isolation_amended :
    parse_declaration_list c3_fixed_tokens =
      .ok ([("a", [Token.tok "NUMBER" "1" "1" 1 3]),
            ("c", [Token.tok "NUMBER" "3" "3" 1 11])],
           [⟨1, 6, "expected colon"⟩]) := rfl

/-- C4: the claim states that every accumulated head token is validated
against the any production when an at-rule reaches its terminator.  The
code instead passes head_token.value (a plain string) to validate_any,
whose first attribute access raises AttributeError, so every at-rule
with a non-empty head crashes: here the spec example of an import rule
with a string head terminated by a semicolon. -/
theorem c4_at_rule_head_attributeerror :
    parse_stylesheet c4_tokens = .error (.attributeError "str object has no attribute type") := rfl

/-- C5: the claim states that a brace container in a property value is
checked against the block production applied to its children.  The code
instead passes the container token itself to validate_block, whose for
loop iterates its argument; token objects are not iterable, so any
value containing a brace block raises TypeError. -/
theorem c5_parse_value_typeerror :
    parse_value [c5_block] = .error (.typeError "ContainerToken object is not iterable") := rfl

/-- C6: the claim states that an empty part between semicolons is
silently skipped, so the block content of a bare semicolon, whitespace,
a second semicolon, and a:1 should yield one declaration and no errors.
The splitting loop instead appends a semicolon seen while the current
part is empty to that part (the flush condition requires a non-empty
part), so the first part starts with the semicolon token, and parsing
it reaches the raise referencing the undefined UnexpectedToken: the
whole declaration list fails with NameError. -/
theorem c6_leading_semicolon_crash :
    parse_declaration_list c6_tokens = .error (.nameError "UnexpectedToken") := rfl

/-- C7: end of input implicitly closes an open block, so the truncated
stylesheet of selector a, an opening brace and the declaration
color: red, with no closing brace, still parses into one ruleset
holding that single declaration, with no errors. -/
theorem c7_implicit_close :
    parse_stylesheet (regroup c7_tokens) =
      .ok ([Rule.ruleset c7_selector [("color", [Token.tok "IDENT" "red" "red" 1 12])]], []) := rfl

/-- C8: every container produced by regroup from a flat (leaf-only)
token stream satisfies the well-formedness invariant: no container
holds, anywhere in the tree, a direct child whose type is its own
matching closing type, however malformed the input stream was. -/
theorem c8_no_own_closer (ts : List Token) (hleaf : ∀ t ∈ ts, t.isLeaf = true) :
    ∀ u ∈ regroup ts, noOwnCloser u = true := fun u hu =>
  (regroup_invariantAux ts.length none ts (Nat.le_refl _) (Or.inl rfl) hleaf u hu).1

/-- C8 witness: the invariant theorem applied to the stream of four
nested parentheses around one identifier, whose grouping is exactly
four nested containers with one child each. -/
theorem c8_no_own_closer_witness :
    c8_tokens.all Token.isLeaf = true ∧ regroup c8_tokens = [c8_grouped] ∧
      noOwnCloser c8_grouped = true :=
  ⟨by decide, rfl,
    c8_no_own_closer c8_tokens (by decide) c8_grouped (List.mem_singleton.mpr rfl)⟩

/-- C9 counterexample: when the stream is exhausted before an at-rule
head reaches a terminator, the rules list does gain an entry: the bare
None returned by parse_at_rule is appended unchanged, so the rules list
has length one rather than gaining no entry. -/
theorem c9_rules_gain_none_entry :
    parse_stylesheet c9_tokens = .ok ([Rule.pyNone], []) ∧
      ([Rule.pyNone] : List Rule).length = 1 := ⟨rfl, rfl⟩

/-- C9 amended: if the token stream is exhausted before an at-rule head
reaches a semicolon or brace terminator, the parse yields no error and
no at-rule tuple; the errors list stays empty and the rules list gains
exactly one bare None placeholder entry. -/
theorem c9_exhausted_at_rule (css v : String) (l c : Nat) (rest : List Token)
    (h : ∀ t ∈ rest, t.type ≠ "\x7b" ∧ t.type ≠ ";") :
    parse_stylesheet (Token.tok "ATKEYWORD" css v l c :: rest) = .ok ([Rule.pyNone], []) := by
  unfold parse_stylesheet
  simp only [List.length_cons]
  simp only [parse_stylesheet_goF]
  rw [if_neg (by simp [Token.type]), if_pos (by simp [Token.type])]
  have har : parse_at_rule (Token.tok "ATKEYWORD" css v l c) rest = (.ok none, []) := by
    unfold parse_at_rule
    simp only [Token.value_attr]
    exact at_rule_go_no_term (strLower v) rest [] (fun t ht => h t ht)
  rw [har]
  simp [rule_of_at, parse_stylesheet_goF_nil]

/-- C9 witness: the amended theorem applied to the stream of an at-foo
keyword, whitespace and an identifier, with no terminator. -/
theorem c9_exhausted_at_rule_witness :
    parse_stylesheet c9_tokens = .ok ([Rule.pyNone], []) :=
  c9_exhausted_at_rule "@foo" "@foo" 1 1
    [Token.tok "S" " " " " 1 5, Token.tok "IDENT" "bar" "bar" 1 6] (by decide)

/-- C10 counterexample: not every element of a returned rules list is a
3-tuple: the bare None appended for an exhausted at-rule has no first
component at all, so the None test cannot by itself distinguish the two
rule variants. -/
theorem c10_rules_entry_not_tuple :
    parse_stylesheet c10_tokens = .ok ([Rule.pyNone], []) ∧
      rule_first Rule.pyNone = none := ⟨rfl, rfl⟩

/-- C10 amended: every element of the rules list returned by
parse_stylesheet is either the bare None placeholder of an exhausted
at-rule, or an at-rule tuple whose first component is a lower-cased
keyword string, or a ruleset tuple whose first component is None; the
first-component test distinguishes the two tuple variants only after
excluding the bare None entries. -/
theorem c10_rules_shape (ts : List Token) (rules : List Rule) (errors : List ParseError)
    (h : parse_stylesheet ts = .ok (rules, errors)) :
    ∀ r ∈ rules,
      r = Rule.pyNone ∨ (∃ v head body, r = Rule.at (strLower v) head body)
        ∨ ∃ s d, r = Rule.ruleset s d :=
  parse_stylesheet_shapeAux ts.length ts rules errors h

/-- C10 witness: the shape theorem applied to the stream of an
exhausted at-bar rule, whose single rules entry is the bare None. -/
theorem c10_rules_shape_witness :
    parse_stylesheet c10_tokens = .ok ([Rule.pyNone], []) ∧
      (Rule.pyNone = Rule.pyNone ∨
        (∃ v head body, Rule.pyNone = Rule.at (strLower v) head body)
        ∨ ∃ s d, Rule.pyNone = Rule.ruleset s d) :=
  ⟨rfl, c10_rules_shape c10_tokens [Rule.pyNone] [] rfl Rule.pyNone (List.mem_singleton.mpr rfl)⟩
